import Mathlib

/-!
Verification of the rule-driven TOC generation engine of an e-book plugin
(source file parsing_engine.py). The Python functions are shallowly embedded
as executable Lean definitions; external collaborators (the regex library,
the DOM library, the package file store) are modelled as explicit function
parameters or record fields holding their observable behaviour.
-/

namespace TocEngine

/-- Prefix test on character lists, the building block of the string
predicates below (all string operations are modelled structurally over
the character content so that every statement evaluates by kernel
reduction). -/
def listPrefix : List Char → List Char → Bool
  | [], _ => true
  | _ :: _, [] => false
  | a :: as, b :: bs => a == b && listPrefix as bs

/-- Contiguous containment test on character lists. -/
def listInfix (needle : List Char) : List Char → Bool
  | [] => listPrefix needle []
  | c :: rest => listPrefix needle (c :: rest) || listInfix needle rest

/-- Containment of one string in another as a contiguous substring,
modelling the Python in operator on strings. -/
def strIn (needle haystack : String) : Bool :=
  listInfix needle.toList haystack.toList

/-- Prefix test on strings. -/
def strStarts (s p : String) : Bool :=
  listPrefix p.toList s.toList

/-- Suffix test on strings. -/
def strEnds (s p : String) : Bool :=
  listPrefix p.toList.reverse s.toList.reverse

/-- Whitespace strip on both ends, modelling the Python strip method on
the whitespace characters the modelled inputs contain. -/
def pyStrip (s : String) : String :=
  String.mk (((s.toList.dropWhile Char.isWhitespace).reverse.dropWhile
    Char.isWhitespace).reverse)

/-- Character-wise lowercase, modelling the Python lower method for the
ASCII range (see safe_id_from_text for the non-ASCII remark). -/
def lowerStr (s : String) : String :=
  String.mk (s.toList.map Char.toLower)

/-- Join of a string list with a separator, modelling the Python join. -/
def joinSep (sep : String) : List String → String
  | [] => ""
  | [x] => x
  | x :: xs => x ++ sep ++ joinSep sep xs

/-- One-character string. -/
def charStr (c : Char) : String :=
  String.mk [c]

/-- Character-count prefix of a string, modelling Python slicing. -/
def takeStr (n : Nat) (s : String) : String :=
  String.mk (s.toList.take n)

/-- Concatenation of n copies of a string. -/
def repeatStr : Nat → String → String
  | 0, _ => ""
  | n + 1, s => s ++ repeatStr n s

/-- Attribute values as the DOM library delivers them: a plain string, or a
multi-valued attribute (for example a class list), which the library
represents as a list of strings. -/
inductive AttrVal where
  | one (s : String)
  | many (l : List String)
deriving DecidableEq

/-- Rendering of an attribute value by the host language string conversion,
as applied by str(actual_value) in attrs_match (parsing_engine.py lines
89 and 95). A list renders as its bracketed comma-separated repr; modelled
for element strings containing no quote or escape characters. -/
def pyStr : AttrVal → String
  | AttrVal.one s => s
  | AttrVal.many l =>
      "[" ++ joinSep ", " (l.map (fun s => charStr '\'' ++ s ++ charStr '\'')) ++ "]"

/-- Actual attribute value used by attrs_match for a given key
(parsing_engine.py lines 78-81 and the str conversions at 89/95):
a missing key defaults to the empty string; a multi-valued value is joined
with spaces only when the key is "class"; any other value goes through the
host language string conversion. -/
def actualValueStr (elem_attrs : List (String × AttrVal)) (key : String) : String :=
  match elem_attrs.lookup key with
  | none => ""
  | some v =>
      if key = "class" then
        match v with
        | AttrVal.one s => s
        | AttrVal.many l => joinSep " " l
      else pyStr v

/-- Sniff test of parsing_engine.py lines 83-87: an expected attribute value
is treated as a regex search pattern exactly when it starts with a caret,
ends with a dollar, or contains a dot-star. -/
def isPatternLike (expected : String) : Bool :=
  strStarts expected "^" || strEnds expected "$" || strIn ".*" expected

/-- Behaviour of the external regex library search entry point: given a
pattern, either none (the pattern does not compile, the library raises
re.error) or the compiled search function, mapping a subject string to
whether a search match exists anywhere in it. -/
abbrev ReSearch := String → Option (String → Bool)

/-- Direct embedding of attrs_match (parsing_engine.py lines 69-97).
An empty requirement map matches; each required pair is checked against
the rendered actual value, by regex search when the expected value sniffs
as a pattern (a non-compiling pattern yields False via the re.error
handler), by substring containment otherwise. -/
def attrs_match (reSearch : ReSearch) (elem_attrs : List (String × AttrVal))
    (required_attrs : List (String × String)) : Bool :=
  if required_attrs.isEmpty then true
  else required_attrs.all (fun kv =>
    let actual := actualValueStr elem_attrs kv.1
    if isPatternLike kv.2 then
      match reSearch kv.2 with
      | none => false
      | some f => f actual
    else strIn kv.2 actual)

/-- Rendition of the attribute matching algorithm exactly as the
specification words it, for comparison with attrs_match: here EVERY
multi-valued attribute is joined with spaces, not only the class key. -/
def attrsMatchSpec (reSearch : ReSearch) (elem_attrs : List (String × AttrVal))
    (required_attrs : List (String × String)) : Bool :=
  if required_attrs.isEmpty then true
  else required_attrs.all (fun kv =>
    let actual :=
      match elem_attrs.lookup kv.1 with
      | none => ""
      | some (AttrVal.one s) => s
      | some (AttrVal.many l) => joinSep " " l
    if isPatternLike kv.2 then
      match reSearch kv.2 with
      | none => false
      | some f => f actual
    else strIn kv.2 actual)

/-- Search behaviour of the pattern used in the specification example:
a search for the anchored pattern caret-y-dollar succeeds exactly on the
subject "y" (or "y" followed by a final newline). Other patterns are not
queried by the statements using this model. -/
def exampleSearch : ReSearch := fun p =>
  if p = "^y$" then some (fun s => s = "y" || s = "y\n") else none

/-- Child node of a markup element as the DOM library presents it to the
classifier: a text node (name is none, text is the raw string), or an
element node (its tag name, attributes, and its stripped text content as
returned by the get_text accessor of the DOM library). -/
structure ChildNode where
  name : Option String
  attrs : List (String × AttrVal)
  text : String
deriving DecidableEq

/-- Markup element under classification: tag name, attributes, the list of
its child nodes, and its own stripped text content (the get_text accessor
of the DOM library, modelled as a stored field since the DOM library is an
external collaborator). -/
structure Elem where
  name : String
  attrs : List (String × AttrVal)
  children : List ChildNode
  text : String
deriving DecidableEq

/-- Zone type of a level-1 heading rule. The specification data model fixes
this five-value enumeration; rule dictionaries carrying a value outside it
would reach an unbound-variable error path in the source and lie outside
the modelled runs. -/
inductive ZoneType where
  | chapter
  | part
  | appendix
  | frontmatter
  | backmatter
deriving DecidableEq

/-- Behaviour of a compiled text pattern of the external regex library:
matching a subject from its start either fails (none) or yields the list
of captured group strings. Runs in which a participating group is absent
(a None group) would raise in extract_clean_text_and_number of the source
and lie outside the modelled runs. -/
abbrev CompiledPat := String → Option (List String)

/-- User-authored rule record (dictionary of parsing_engine.py / dialogs.py).
The parent_attrs and child_attrs keys may be absent (none), activating the
legacy class fallbacks in the classifier; text_pattern and case_insensitive
are carried for completeness, their compiled behaviour being the
compiled_pattern field (the compile loop at parsing_engine.py lines
235-238 modelled by that field); zone_type and display_template default to
chapter and the empty string where absent. -/
structure Rule where
  level : Nat
  element : String
  parent_attrs : Option (List (String × String))
  legacy_class : String
  child_element : String
  child_attrs : Option (List (String × String))
  legacy_child_class : String
  text_pattern : String
  case_insensitive : Bool
  zone_type : Option ZoneType
  display_template : Option String
  compiled_pattern : CompiledPat

/-- Resolved parent attribute requirements (parsing_engine.py lines
106-109): the parent_attrs entry when present, otherwise a class
requirement built from the stripped legacy class entry when that is
non-empty, otherwise empty. -/
def resolveParentAttrs (rule : Rule) : List (String × String) :=
  match rule.parent_attrs with
  | some m => m
  | none =>
      let legacy := pyStrip rule.legacy_class
      if legacy = "" then [] else [("class", legacy)]

/-- Resolved child attribute requirements (parsing_engine.py lines
128-133), with the legacy child class fallback. -/
def resolveChildAttrs (rule : Rule) : List (String × String) :=
  match rule.child_attrs with
  | some m => m
  | none =>
      let legacy := pyStrip rule.legacy_child_class
      if legacy = "" then [] else [("class", legacy)]

/-- Children that survive the whitespace filter of parsing_engine.py lines
117-121: every child except text nodes whose stripped content is empty. -/
def significantChildren (elem : Elem) : List ChildNode :=
  elem.children.filter (fun c => !(c.name.isNone && pyStrip c.text = ""))

/-- Text extracted through the child-element conditions of
parsing_engine.py lines 116-137: requires exactly one significant child,
whose tag equals the stripped child_element of the rule and whose
attributes satisfy the resolved child requirements; yields that child
stripped text. Any failed condition yields none (the rule is skipped). -/
def childText (reSearch : ReSearch) (rule : Rule) (elem : Elem) : Option String :=
  match significantChildren elem with
  | [child] =>
      match child.name with
      | some n =>
          if n = pyStrip rule.child_element &&
             attrs_match reSearch child.attrs (resolveChildAttrs rule) then
            some child.text
          else none
      | none => none
  | _ => none

/-- Text a rule would match against for a given element, none when one of
the element-tag, attribute or child conditions fails (the guard cascade of
parsing_engine.py lines 103-139 up to the pattern test): the element own
text when no child element is required, the single-child text otherwise. -/
def matchedText (reSearch : ReSearch) (rule : Rule) (elem : Elem) : Option String :=
  if elem.name = rule.element &&
     attrs_match reSearch elem.attrs (resolveParentAttrs rule) then
    if pyStrip rule.child_element = "" then some elem.text
    else childText reSearch rule elem
  else none

/-- Classification outcome returned for a matching rule
(parsing_engine.py lines 141-152). -/
structure Classification where
  level : Nat
  text : String
  zone_type : ZoneType
  display_template : String
  compiled_pattern : CompiledPat

/-- All conditions of one rule against one element, including the anchored
text pattern test (parsing_engine.py line 141). -/
def ruleMatches (reSearch : ReSearch) (rule : Rule) (elem : Elem) : Bool :=
  match matchedText reSearch rule elem with
  | some t => (rule.compiled_pattern t).isSome
  | none => false

/-- Classification tuple built from a rule for an element
(parsing_engine.py lines 142-152), with the zone type and display template
defaults applied. -/
def ruleClassification (reSearch : ReSearch) (rule : Rule) (elem : Elem) :
    Classification :=
  { level := rule.level
    text := (matchedText reSearch rule elem).getD ""
    zone_type := rule.zone_type.getD ZoneType.chapter
    display_template := rule.display_template.getD ""
    compiled_pattern := rule.compiled_pattern }

/-- Direct embedding of the classifier returned by
create_classify_heading_function (parsing_engine.py lines 100-156):
rules are tried in authored order; the first rule whose guard cascade and
pattern test succeed yields its classification; exhaustion yields none
(the all-None tuple of line 154). -/
def classify_heading (reSearch : ReSearch) : List Rule → Elem → Option Classification
  | [], _ => none
  | rule :: rest, elem =>
      match matchedText reSearch rule elem with
      | some text =>
          if (rule.compiled_pattern text).isSome then
            some (ruleClassification reSearch rule elem)
          else classify_heading reSearch rest elem
      | none => classify_heading reSearch rest elem

/-- Value-symbol table of int_to_roman (parsing_engine.py lines 34-44). -/
def romanPairs : List (Nat × String) :=
  [(1000, "M"), (900, "CM"), (500, "D"), (400, "CD"), (100, "C"), (90, "XC"),
   (50, "L"), (40, "XL"), (10, "X"), (9, "IX"), (5, "V"), (4, "IV"), (1, "I")]

/-- Direct embedding of int_to_roman (parsing_engine.py lines 34-44): for
each value-symbol pair in order, emit the symbol once per whole multiple of
the value contained in the remainder (the repeated subtraction of the
source equals division and remainder). -/
def int_to_roman (num : Nat) : String :=
  (romanPairs.foldl
    (fun acc p => (acc.1 ++ repeatStr (acc.2 / p.1) p.2, acc.2 % p.1))
    ("", num)).1

/-- Whether a character survives the keep-class of the slug regex of
safe_id_from_text: a lowercase ASCII letter or an ASCII digit. -/
def slugKeep (c : Char) : Bool :=
  (decide ('a' ≤ c) && decide (c ≤ 'z')) || (decide ('0' ≤ c) && decide (c ≤ '9'))

/-- Collapse of consecutive hyphens into one, the effect of replacing each
maximal run of non-kept characters by a single hyphen once every non-kept
character has been mapped to a hyphen. -/
def collapseDashes (l : List Char) : List Char :=
  (l.foldl
    (fun acc c =>
      if c = '-' then (if acc.2 then acc else (acc.1 ++ ['-'], true))
      else (acc.1 ++ [c], false))
    ([], false)).1

/-- Direct embedding of safe_id_from_text (parsing_engine.py lines 47-49):
lowercase the text, replace every maximal run of characters outside
lowercase ASCII letters and digits by a single hyphen, strip leading and
trailing hyphens, and fall back to the literal toc-item when empty.
Lowercasing is modelled for ASCII letters (the external regex and string
libraries handle further code points identically here, since every
non-ASCII character is replaced by a hyphen either way). -/
def safe_id_from_text (text : String) : String :=
  let mapped := (lowerStr text).toList.map (fun c => if slugKeep c then c else '-')
  let collapsed := collapseDashes mapped
  let stripped :=
    ((collapsed.dropWhile (fun c => c = '-')).reverse.dropWhile (fun c => c = '-')).reverse
  if stripped.isEmpty then "toc-item" else String.mk stripped

/-- Direct embedding of extract_clean_text_and_number (parsing_engine.py
lines 52-66): match the compiled pattern against the raw text from the
start; on failure the number token is empty and the clean text is the
stripped raw text; on success the number token is group 1 stripped (empty
when the pattern has no groups) and the clean text is group 2 stripped
when present and non-empty, the stripped raw text otherwise. -/
def extract_clean_text_and_number (raw_text : String) (compiled_pattern : CompiledPat) :
    String × String :=
  match compiled_pattern raw_text with
  | none => ("", pyStrip raw_text)
  | some groups =>
      let num_part := ((groups.get? 0).map pyStrip).getD ""
      let clean_text :=
        match groups.get? 1 with
        | some g => if g ≠ "" then pyStrip g else pyStrip raw_text
        | none => pyStrip raw_text
      (num_part, clean_text)

/-- Substitution pass of the display template formatting call of the host
language (the format invocations at parsing_engine.py lines 314, 325, 336
and 345): scan the template once, replacing each occurrence of the three
supported replacement fields by the corresponding argument. Modelled for
templates whose replacement fields lie within this set; any other field
raises in the source and lies outside the modelled runs. -/
def substFields (num text raw : String) : List Char → String
  | [] => ""
  | '{' :: 'n' :: 'u' :: 'm' :: '}' :: rest => num ++ substFields num text raw rest
  | '{' :: 't' :: 'e' :: 'x' :: 't' :: '}' :: rest => text ++ substFields num text raw rest
  | '{' :: 'r' :: 'a' :: 'w' :: '}' :: rest => raw ++ substFields num text raw rest
  | c :: rest => charStr c ++ substFields num text raw rest

/-- Display template formatting with the three supported fields. -/
def pyFormat (template num text raw : String) : String :=
  substFields num text raw template.toList

/-- Per-parent section counter triple (parsing_engine.py line 30). -/
structure SecCounter where
  sec2 : Nat
  sec3 : Nat
  sec4 : Nat
deriving DecidableEq

/-- Run-scoped counter state of the numbering stage (the TOCContext class
of parsing_engine.py lines 19-31), with the section counter map as an
association list keyed by parent anchor. -/
structure TOCContext where
  chapter_counter : Nat
  appendix_counter : Nat
  frontmatter_counter : Nat
  backmatter_counter : Nat
  part_counter : Nat
  section_counters : List (String × SecCounter)
deriving DecidableEq

/-- Fresh context at generation start (the constructor of TOCContext). -/
def initTOCContext : TOCContext :=
  { chapter_counter := 0, appendix_counter := 0, frontmatter_counter := 0,
    backmatter_counter := 0, part_counter := 0, section_counters := [] }

/-- Lookup of the per-parent counter triple, with the lazy zero triple the
get_section_counter method inserts on first reference
(parsing_engine.py lines 28-31). -/
def get_section_counter (ctx : TOCContext) (base_id : String) : SecCounter :=
  (ctx.section_counters.lookup base_id).getD { sec2 := 0, sec3 := 0, sec4 := 0 }

/-- Store of an updated counter triple under a parent anchor: replaces the
first existing entry for the key, appends a new entry otherwise, matching
the update and insertion behaviour of the dictionary of the source. -/
def updSection (l : List (String × SecCounter)) (k : String) (v : SecCounter) :
    List (String × SecCounter) :=
  match l with
  | [] => [(k, v)]
  | p :: rest => if p.1 = k then (k, v) :: rest else p :: updSection rest k v

/-- Heading record as collected during the spine scan (the all_raw_items
dictionaries of parsing_engine.py lines 271-282). The element reference is
not carried: the only use of it, stamping the generated anchor onto the
element id attribute, is a write into the document owned by the external
store and is not observed by any modelled artifact. -/
structure RawItem where
  level : Nat
  file_name : String
  raw_text : String
  zone_type : ZoneType
  display_template : String
  compiled_pattern : CompiledPat

/-- Entry of the flat toc_items list (parsing_engine.py lines 289-296,
352-359 and 391-398). -/
structure TocEntry where
  level : Nat
  text : String
  file : String
  anchor : String
deriving DecidableEq

/-- State threaded through the numbering loop over the collected records:
the counter context, the levels and assigned anchors of the records
already processed in discovery order (an empty anchor standing for a
dropped record that was never assigned one), the toc_items accumulator,
and the occurrence count. -/
structure NumState where
  context : TOCContext
  processed : List (Nat × String)
  toc_items : List TocEntry
  occurrences : Nat
deriving DecidableEq

/-- Initial numbering state: fresh counters, no processed records, the
synthetic level-0 Table of Contents entry (parsing_engine.py lines
289-296), and zero occurrences. -/
def initNumState : NumState :=
  { context := initTOCContext
    processed := []
    toc_items := [{ level := 0, text := "Table of Contents",
                    file := "toc.html", anchor := "toc" }]
    occurrences := 0 }

/-- Nearest preceding level-1 record of the discovery order, the backward
scan of parsing_engine.py lines 363-367, yielding its assigned anchor. -/
def nearestPrecedingL1 (processed : List (Nat × String)) : Option String :=
  match processed.reverse.find? (fun p => p.1 == 1) with
  | none => none
  | some p => some p.2

/-- Printable zone name, used for the frontmatter and backmatter anchor
prefix (the zt value of parsing_engine.py line 343). -/
def zoneName : ZoneType → String
  | ZoneType.chapter => "chapter"
  | ZoneType.part => "part"
  | ZoneType.appendix => "appendix"
  | ZoneType.frontmatter => "frontmatter"
  | ZoneType.backmatter => "backmatter"

/-- One iteration of the numbering loop of parsing_engine.py lines 297-399,
covering both the level-1 zone dispatch (lines 298-360) and the level-2 and
deeper section numbering (lines 362-399). -/
def toc_step (st : NumState) (item : RawItem) : NumState :=
  if item.level == 1 then
    let raw := item.raw_text
    let template := item.display_template
    let pr := extract_clean_text_and_number raw item.compiled_pattern
    let clean_text := pr.2
    match item.zone_type with
    | ZoneType.chapter =>
        let c := st.context.chapter_counter + 1
        let auto_num := toString c
        let anchor_id := auto_num
        let display_text :=
          if template ≠ "" then pyFormat template auto_num clean_text raw
          else "Chapter " ++ auto_num
        { context := { st.context with chapter_counter := c }
          processed := st.processed ++ [(1, anchor_id)]
          toc_items := st.toc_items ++
            [{ level := 1, text := display_text, file := item.file_name, anchor := anchor_id }]
          occurrences := st.occurrences + 1 }
    | ZoneType.part =>
        let c := st.context.part_counter + 1
        let roman := int_to_roman c
        let anchor_id := "part-" ++ lowerStr roman
        let display_text :=
          if template ≠ "" then pyFormat template roman clean_text raw else raw
        { context := { st.context with part_counter := c }
          processed := st.processed ++ [(1, anchor_id)]
          toc_items := st.toc_items ++
            [{ level := 1, text := display_text, file := item.file_name, anchor := anchor_id }]
          occurrences := st.occurrences + 1 }
    | ZoneType.appendix =>
        let c := st.context.appendix_counter + 1
        let letter := charStr (Char.ofNat ('A'.toNat + c - 1))
        let anchor_id := "app-" ++ lowerStr letter
        let display_text :=
          if template ≠ "" then pyFormat template letter clean_text raw
          else "Appendix " ++ letter
        { context := { st.context with appendix_counter := c }
          processed := st.processed ++ [(1, anchor_id)]
          toc_items := st.toc_items ++
            [{ level := 1, text := display_text, file := item.file_name, anchor := anchor_id }]
          occurrences := st.occurrences + 1 }
    | ZoneType.frontmatter =>
        let anchor_id := takeStr 4 (zoneName ZoneType.frontmatter) ++ "-" ++ safe_id_from_text raw
        let display_text :=
          if template ≠ "" then pyFormat template "" raw raw else raw
        { context := st.context
          processed := st.processed ++ [(1, anchor_id)]
          toc_items := st.toc_items ++
            [{ level := 1, text := display_text, file := item.file_name, anchor := anchor_id }]
          occurrences := st.occurrences + 1 }
    | ZoneType.backmatter =>
        let anchor_id := takeStr 4 (zoneName ZoneType.backmatter) ++ "-" ++ safe_id_from_text raw
        let display_text :=
          if template ≠ "" then pyFormat template "" raw raw else raw
        { context := st.context
          processed := st.processed ++ [(1, anchor_id)]
          toc_items := st.toc_items ++
            [{ level := 1, text := display_text, file := item.file_name, anchor := anchor_id }]
          occurrences := st.occurrences + 1 }
  else
    match nearestPrecedingL1 st.processed with
    | none => { st with processed := st.processed ++ [(item.level, "")] }
    | some base_id =>
        let counter := get_section_counter st.context base_id
        let lvl := item.level
        let seqAnchorCnt :=
          if lvl == 2 then
            let seq := counter.sec2 + 1
            (base_id ++ "-" ++ toString seq, { counter with sec2 := seq })
          else if lvl == 3 then
            let seq := counter.sec3 + 1
            (base_id ++ "-s" ++ toString seq, { counter with sec3 := seq })
          else
            let seq := counter.sec4 + 1
            (base_id ++ "-ss" ++ toString seq, { counter with sec4 := seq })
        let anchor := seqAnchorCnt.1
        { context := { st.context with
            section_counters := updSection st.context.section_counters base_id seqAnchorCnt.2 }
          processed := st.processed ++ [(lvl, anchor)]
          toc_items := st.toc_items ++
            [{ level := lvl, text := item.raw_text, file := item.file_name, anchor := anchor }]
          occurrences := st.occurrences + 1 }

/-- The whole numbering loop: fold of toc_step over the collected records
in discovery order, from the initial state. -/
def runNumbering (items : List RawItem) : NumState :=
  items.foldl toc_step initNumState

/-- Node of the rendered TOC tree (the dictionaries of build_tree,
parsing_engine.py lines 412-417). -/
structure TNode where
  level : Nat
  text : String
  src : String
  children : List TNode

/-- Pop of the stack of open nodes, performed a fixed number of times. In
the source a popped node has already been linked into its parent children
list at push time and later grows in place; functionally the link is
performed at pop time instead, when the popped node is final, which
preserves both child order and tree shape. -/
def popMerge : Nat → List TNode → List TNode
  | 0, stack => stack
  | n + 1, top :: parent :: rest =>
      popMerge n ({ parent with children := parent.children ++ [top] } :: rest)
  | _ + 1, stack => stack

/-- Pops of the while loop of parsing_engine.py lines 418-419: the stack is
popped while its length (the virtual root included) exceeds the record
level, that is, exactly length-minus-level times. -/
def popTo (lvl : Nat) (stack : List TNode) : List TNode :=
  popMerge (stack.length - lvl) stack

/-- Direct embedding of build_tree (parsing_engine.py lines 406-424):
seed the stack with a virtual root, skip level-0 entries, pop while the
stack is longer than the entry level, append the new node under the new
top and push it, and finally return the children of the virtual root
(final pops drain every open node into its parent). -/
def build_tree (items : List TocEntry) : List TNode :=
  let root : TNode := { level := 0, text := "", src := "", children := [] }
  let finalStack := items.foldl
    (fun stack item =>
      if item.level == 0 then stack
      else
        let node : TNode := { level := item.level, text := item.text,
                              src := item.file ++ "#" ++ item.anchor, children := [] }
        node :: popTo item.level stack)
    [root]
  match popTo 1 finalStack with
  | [r] => r.children
  | _ => []

/-- Write operations issued against the external package store during a
generation run, in issue order. Document and artifact byte contents are
not modelled; the claims checked here concern which resources are written,
added or registered. -/
inductive Effect where
  | writeFile (id : String)
  | addFile (id path mediaType : String)
  | spineInsertBefore (pos : Nat) (id : String)
deriving DecidableEq

/-- External package store and package metadata as generate_toc consumes
them: the spine listing, the id-to-href mapping, the per-document element
scan (the DOM parse of a document followed by the find_all call over the
configured tag set), the presence of the manifest and spine containers in
the parsed package file, the optional existing manifest entry for the HTML
TOC (with its optional id attribute), the optional existing resource id of
the navigation document path, and the presence test of a spine reference.
Package title and unique identifier only flow into unmodelled artifact
contents and are not carried. -/
structure Book where
  spine : List (Option String × String)
  id_to_href : String → String
  find_all : String → List Elem
  has_manifest : Bool
  has_spine_el : Bool
  manifest_toc_item : Option (Option String)
  ncx_id : Option String
  spine_has_ref : String → Bool

/-- Spine item ids retained by the scan (parsing_engine.py line 243). -/
def spineFiles (bk : Book) : List String :=
  bk.spine.filterMap Prod.fst

/-- Records collected from one document (the inner loop of
parsing_engine.py lines 259-282). -/
def collectFile (reSearch : ReSearch) (rules : List Rule) (bk : Book)
    (fname : String) : List RawItem :=
  (bk.find_all fname).filterMap (fun elem =>
    match classify_heading reSearch rules elem with
    | none => none
    | some c =>
        some { level := c.level, file_name := bk.id_to_href fname,
               raw_text := c.text, zone_type := c.zone_type,
               display_template := c.display_template,
               compiled_pattern := c.compiled_pattern })

/-- The all_raw_items list: records collected over every spine document in
spine order (parsing_engine.py lines 254-282). -/
def collectRawItems (reSearch : ReSearch) (rules : List Rule) (bk : Book) :
    List RawItem :=
  (spineFiles bk).flatMap (collectFile reSearch rules bk)

/-- Effect of the navigation document stage (parsing_engine.py lines
515-530): register a new resource when none exists at the conventional
path, overwrite the existing resource otherwise. -/
def ncxEffect (bk : Book) : Effect :=
  match bk.ncx_id with
  | none => Effect.addFile "ncx" "toc.ncx" "application/xml"
  | some i => Effect.writeFile i

/-- Resolved id of the HTML TOC resource together with its write effect
(parsing_engine.py lines 605-622): a fresh manifest entry and resource
under the id toc when the manifest holds no entry for the TOC path,
otherwise an overwrite through the existing entry id, falling back to toc
when that id attribute is absent or empty. -/
def tocHtmlTarget (bk : Book) : String × Effect :=
  match bk.manifest_toc_item with
  | none => ("toc", Effect.addFile "toc" "toc.html" "application/xhtml+xml")
  | some idOpt =>
      let tid := match idOpt with
        | some s => if s = "" then "toc" else s
        | none => "toc"
      (tid, Effect.writeFile tid)

/-- Whether the closing summary stage raises: its rule formatting helper
indexes the parent_attrs and child_attrs keys directly
(parsing_engine.py lines 635-648) and raises KeyError for a rule of level
1, 2 or 3 lacking one of them. -/
def getRulesRaises (rules : List Rule) : Bool :=
  rules.any (fun r =>
    (r.level == 1 || r.level == 2 || r.level == 3) &&
    (r.parent_attrs.isNone || r.child_attrs.isNone))

/-- Direct embedding of the generate_toc run (parsing_engine.py lines
233-666). The first component models the value returned to the caller:
none models the bare return of line 603 (the caller receives no pair);
some (none, n) a successful pair; some (some e, n) a caught exception
surfaced as an error value with the occurrence count accumulated so far.
The second component is the journal of store writes in issue order.
Stages whose failure is not data-dependent in the model (package file
parse, document parse) are assumed to succeed; the empty-spine exception
of line 246 and the summary-stage KeyError are modelled explicitly. -/
def generate_toc (reSearch : ReSearch) (rules : List Rule) (bk : Book) :
    Option (Option String × Nat) × List Effect :=
  let spine_files := spineFiles bk
  if spine_files.isEmpty then (some (some "Spine 为空", 0), [])
  else
    let all_raw_items := collectRawItems reSearch rules bk
    if all_raw_items.isEmpty then (some (none, 0), [])
    else
      let st := runNumbering all_raw_items
      let effectsDocs := spine_files.map Effect.writeFile
      let effectsNcx := effectsDocs ++ [ncxEffect bk]
      if !(bk.has_manifest && bk.has_spine_el) then (none, effectsNcx)
      else
        let target := tocHtmlTarget bk
        let effectsHtml := effectsNcx ++ [target.2]
        let effectsSpine :=
          if bk.spine_has_ref target.1 then effectsHtml
          else effectsHtml ++ [Effect.spineInsertBefore 1 target.1]
        if getRulesRaises rules then
          (some (some "KeyError", st.occurrences), effectsSpine)
        else (some (none, st.occurrences), effectsSpine)

/-- Rendition of the display-template substitution exactly as the
specification words it, for comparison with the toc_step embedding: the
num placeholder receives capture group 1 of the text pattern (trimmed) for
chapter, frontmatter and backmatter zones and the generated roman or
letter token for part and appendix zones; the text placeholder receives
the clean title; the raw placeholder receives the raw text. -/
def specDisplayText (ctx : TOCContext) (item : RawItem) : String :=
  let pr := extract_clean_text_and_number item.raw_text item.compiled_pattern
  let numTok :=
    match item.zone_type with
    | ZoneType.chapter => pr.1
    | ZoneType.frontmatter => pr.1
    | ZoneType.backmatter => pr.1
    | ZoneType.part => int_to_roman (ctx.part_counter + 1)
    | ZoneType.appendix =>
        charStr (Char.ofNat ('A'.toNat + (ctx.appendix_counter + 1) - 1))
  pyFormat item.display_template numTok pr.2 item.raw_text

/-- Regex behaviour that rejects every pattern, usable where a statement
never reaches the regex branch or models a library failure. -/
def dummySearch : ReSearch := fun _ => none

/-- Chapter heading record whose raw text carries the printed number 5
while it is the first chapter of the run. -/
def c3item : RawItem :=
  { level := 1, file_name := "f.html", raw_text := "Chapter 5: Foo",
    zone_type := ZoneType.chapter, display_template := "{num}|{text}",
    compiled_pattern := fun s =>
      if s = "Chapter 5: Foo" then some ["5", "Foo"] else none }

/-- Level sequence 1,2,3,2,1 over otherwise concrete entries. -/
def c4items : List TocEntry :=
  [{ level := 1, text := "a", file := "f", anchor := "x1" },
   { level := 2, text := "b", file := "f", anchor := "x2" },
   { level := 3, text := "c", file := "f", anchor := "x3" },
   { level := 2, text := "d", file := "f", anchor := "x4" },
   { level := 1, text := "e", file := "f", anchor := "x5" }]

/-- Level sequence 1,3,3 over otherwise concrete entries. -/
def c5items : List TocEntry :=
  [{ level := 1, text := "a", file := "f", anchor := "y1" },
   { level := 3, text := "b", file := "f", anchor := "y2" },
   { level := 3, text := "c", file := "f", anchor := "y3" }]

/-- Chapter record with an empty template and a never-matching pattern. -/
def chapterItem (t : String) : RawItem :=
  { level := 1, file_name := "f", raw_text := t, zone_type := ZoneType.chapter,
    display_template := "", compiled_pattern := fun _ => none }

/-- Section record of a given level with an empty template and a
never-matching pattern. -/
def sectionItem (lvl : Nat) (t : String) : RawItem :=
  { level := lvl, file_name := "f", raw_text := t, zone_type := ZoneType.chapter,
    display_template := "", compiled_pattern := fun _ => none }

/-- Two chapters each followed by two level-2 sections, the worked example
of the specification for per-parent counter independence. -/
def c7items : List RawItem :=
  [chapterItem "A", sectionItem 2 "a1", sectionItem 2 "a2",
   chapterItem "B", sectionItem 2 "b1", sectionItem 2 "b2"]

/-- Numbering state holding one processed level-1 record with anchor 1. -/
def c7state : NumState :=
  { context := initTOCContext, processed := [(1, "1")],
    toc_items := [], occurrences := 3 }

/-- Level-2 record used to exercise the section numbering step. -/
def c7sub : RawItem := sectionItem 2 "S"

/-- Compiled behaviour of a chapter pattern that matches exactly the
subject Chapter 1 with groups 1 and empty. -/
def patChapter1 : CompiledPat :=
  fun s => if s = "Chapter 1" then some ["1", ""] else none

/-- Chapter rule for h1 elements with no attribute or child conditions. -/
def ruleC : Rule :=
  { level := 1, element := "h1", parent_attrs := some [], legacy_class := "",
    child_element := "", child_attrs := some [], legacy_child_class := "",
    text_pattern := "^Chapter\\s+(\\d+)(.*)", case_insensitive := false,
    zone_type := some ZoneType.chapter, display_template := some "",
    compiled_pattern := patChapter1 }

/-- Heading element matched by ruleC. -/
def h1elem : Elem :=
  { name := "h1", attrs := [], children := [], text := "Chapter 1" }

/-- Package whose parsed package file lacks the manifest container, with a
one-document spine containing one matching heading. -/
def bkNoManifest : Book :=
  { spine := [(some "f1", "f1.html")], id_to_href := fun s => s,
    find_all := fun f => if f = "f1" then [h1elem] else [],
    has_manifest := false, has_spine_el := true,
    manifest_toc_item := none, ncx_id := none, spine_has_ref := fun _ => false }

/-- Package with an empty spine. -/
def bkEmptySpine : Book :=
  { spine := [], id_to_href := fun s => s, find_all := fun _ => [],
    has_manifest := true, has_spine_el := true,
    manifest_toc_item := none, ncx_id := none, spine_has_ref := fun _ => false }

/-- Well-formed one-document package in which no element will match an
empty rule list. -/
def bkNoMatch : Book :=
  { spine := [(some "g1", "g1.html")], id_to_href := fun s => s,
    find_all := fun _ => [h1elem],
    has_manifest := true, has_spine_el := true,
    manifest_toc_item := none, ncx_id := none, spine_has_ref := fun _ => false }

/-- C4, counterexample. On the level sequence 1,2,3,2,1 the tree builder
gives the first top-level node TWO children (both level-2 records land
under it), refuting the claimed children-count profile of one child under
the first top-level node. -/
theorem c4_counterexample :
    ((build_tree c4items).map (fun n => n.children.length) = [2, 0]) ∧
    ¬ ((build_tree c4items).map (fun n => n.children.length) = [1, 0]) := by
  exact ⟨by decide, by decide⟩

/-- C4, amended. Building the TOC tree from heading records with level
sequence 1,2,3,2,1 yields two top-level nodes; the first has exactly two
children, namely both level-2 records in order, the first of which has the
level-3 record as its only child; the second top-level node is a leaf. -/
theorem c4_tree_shape
    (t1 t2 t3 t4 t5 f1 f2 f3 f4 f5 a1 a2 a3 a4 a5 : String) :
    build_tree
      [{ level := 1, text := t1, file := f1, anchor := a1 },
       { level := 2, text := t2, file := f2, anchor := a2 },
       { level := 3, text := t3, file := f3, anchor := a3 },
       { level := 2, text := t4, file := f4, anchor := a4 },
       { level := 1, text := t5, file := f5, anchor := a5 }] =
      [{ level := 1, text := t1, src := f1 ++ "#" ++ a1, children :=
          [{ level := 2, text := t2, src := f2 ++ "#" ++ a2, children :=
              [{ level := 3, text := t3, src := f3 ++ "#" ++ a3, children := [] }] },
           { level := 2, text := t4, src := f4 ++ "#" ++ a4, children := [] }] },
       { level := 1, text := t5, src := f5 ++ "#" ++ a5, children := [] }] := rfl

/-- C5, counterexample. On the level sequence 1,3,3 the second level-3
record does NOT become a sibling of the first one under the level-1 node:
the level-1 node has a single child, under which the second level-3 record
is nested, refuting the claimed sibling placement. -/
theorem c5_counterexample :
    ((build_tree c5items).map
        (fun n => (n.level, n.children.map (fun c => (c.level, c.children.length)))) =
      [(1, [(3, 1)])]) ∧
    ¬ ((build_tree c5items).map (fun n => n.children.length) = [2]) := by
  exact ⟨by decide, by decide⟩

/-- C5, amended. The tree builder pops the stack while the number of open
nodes (virtual root included) exceeds the record level, then appends the
new node under the new stack top. Hence two consecutive records of equal
level become siblings when the earlier record sits at a stack depth equal
to its level (as for the no-gap sequence 1,2,2), while after a level gap
the pop condition does not fire and the next equal-level record nests
under the previous one: on 1,3,3 the second level-3 record becomes the
child of the first. -/
theorem c5_tree_shape (t1 t2 t3 u1 u2 u3 : String) :
    build_tree
      [{ level := 1, text := t1, file := "f", anchor := "p" },
       { level := 3, text := t2, file := "f", anchor := "q" },
       { level := 3, text := t3, file := "f", anchor := "r" }] =
      [{ level := 1, text := t1, src := "f" ++ "#" ++ "p", children :=
          [{ level := 3, text := t2, src := "f" ++ "#" ++ "q", children :=
              [{ level := 3, text := t3, src := "f" ++ "#" ++ "r", children := [] }] }] }] ∧
    build_tree
      [{ level := 1, text := u1, file := "g", anchor := "p" },
       { level := 2, text := u2, file := "g", anchor := "q" },
       { level := 2, text := u3, file := "g", anchor := "r" }] =
      [{ level := 1, text := u1, src := "g" ++ "#" ++ "p", children :=
          [{ level := 2, text := u2, src := "g" ++ "#" ++ "q", children := [] },
           { level := 2, text := u3, src := "g" ++ "#" ++ "r", children := [] }] }] :=
  ⟨rfl, rfl⟩

/-- C8, counterexample. For a multi-valued attribute under a key other
than class the source does not join with spaces: it renders the list via
the host language string conversion, so a required substring that would
hold against the space-joined value fails against the rendered list. -/
theorem c8_counterexample :
    attrsMatchSpec dummySearch [("rel", AttrVal.many ["a", "b"])] [("rel", "a b")] = true ∧
    attrs_match dummySearch [("rel", AttrVal.many ["a", "b"])] [("rel", "a b")] = false := by
  exact ⟨by decide, by decide⟩

/-- C8, amended. attrs_match holds on an empty requirement map; each
required pair is checked independently, by regex search exactly when the
expected value starts with a caret, ends with a dollar or contains a
dot-star, and by substring containment otherwise; the actual value joined
with spaces is used for a multi-valued CLASS attribute (other multi-valued
attributes go through the host language list rendering); in particular a
class list a b c contains the substring b, and the anchored pattern
caret-y-dollar search-fails against the value x. -/
theorem c8_attrs_match :
    (∀ (s : ReSearch) (a : List (String × AttrVal)), attrs_match s a [] = true) ∧
    (∀ (s : ReSearch) (a : List (String × AttrVal)) (k e : String)
        (rest : List (String × String)),
      attrs_match s a ((k, e) :: rest) =
        ((if isPatternLike e then ((s e).map (fun f => f (actualValueStr a k))).getD false
          else strIn e (actualValueStr a k)) && attrs_match s a rest)) ∧
    (∀ l : List String,
      actualValueStr [("class", AttrVal.many l)] "class" = joinSep " " l) ∧
    (∀ s : ReSearch,
      attrs_match s [("class", AttrVal.one "a b c")] [("class", "b")] = true) ∧
    attrs_match exampleSearch [("class", AttrVal.one "x")] [("class", "^y$")] = false := by
  refine ⟨fun s a => rfl, ?_, fun l => rfl, fun s => rfl, by decide⟩
  intro s a k e rest
  cases rest with
  | nil => cases hse : s e <;> simp [attrs_match, hse]
  | cons p ps => cases hse : s e <;> simp [attrs_match, hse]

/-- Helper: a required pair whose expected value sniffs as a pattern the
regex library rejects forces attrs_match to false. -/
theorem attrs_match_false_of_malformed (s : ReSearch)
    (a : List (String × AttrVal)) (req : List (String × String)) (k e : String)
    (hmem : (k, e) ∈ req) (hp : isPatternLike e = true) (hs : s e = none) :
    attrs_match s a req = false := by
  have hne : req ≠ [] := List.ne_nil_of_mem hmem
  unfold attrs_match
  rw [if_neg (by simp [List.isEmpty_iff, hne])]
  rw [List.all_eq_false]
  exact ⟨(k, e), hmem, by simp [hp, hs]⟩

/-- C10. A required attribute value that is sniffed as a pattern but does
not compile makes attrs_match return false for its requirement map rather
than raising, and consequently the classifier skips a rule whose resolved
parent attribute requirements carry such a value and continues the scan
with the remaining rules. -/
theorem c10_malformed_pattern :
    (∀ (s : ReSearch) (a : List (String × AttrVal)) (req : List (String × String))
        (k e : String),
      (k, e) ∈ req → isPatternLike e = true → s e = none →
      attrs_match s a req = false) ∧
    (∀ (s : ReSearch) (rule : Rule) (rest : List Rule) (elem : Elem) (k e : String),
      (k, e) ∈ resolveParentAttrs rule → isPatternLike e = true → s e = none →
      classify_heading s (rule :: rest) elem = classify_heading s rest elem) := by
  refine ⟨attrs_match_false_of_malformed, ?_⟩
  intro s rule rest elem k e hmem hp hs
  have ham := attrs_match_false_of_malformed s elem.attrs (resolveParentAttrs rule) k e hmem hp hs
  have hmt : matchedText s rule elem = none := by
    unfold matchedText
    rw [if_neg]
    simp [ham]
  simp [classify_heading, hmt]

/-- C10, witness. Concrete instantiation: the malformed anchored pattern
caret-bracket inside a singleton requirement map forces attrs_match to
false. -/
theorem c10_witness :
    attrs_match dummySearch [] [("id", "^[")] = false :=
  c10_malformed_pattern.1 dummySearch [] [("id", "^[")] "id" "^["
    (by decide) (by decide) rfl

/-- C6. The classifier returns the classification of the first rule in
authored order whose element-tag, attribute, child-element and anchored
text-pattern conditions all hold (the find? of the rule list under
ruleMatches), and none when no rule matches; in particular a later
matching rule is never selected over an earlier match, and exhaustion is
not an error value but the none classification. -/
theorem c6_first_match (s : ReSearch) (rules : List Rule) (elem : Elem) :
    classify_heading s rules elem =
      (rules.find? (fun r => ruleMatches s r elem)).map
        (fun r => ruleClassification s r elem) := by
  induction rules with
  | nil => rfl
  | cons r rest ih =>
      cases hmt : matchedText s r elem with
      | none =>
          have hrm : ruleMatches s r elem = false := by
            simp [ruleMatches, hmt]
          simp [classify_heading, hmt, List.find?_cons, hrm, ih]
      | some t =>
          by_cases hps : (r.compiled_pattern t).isSome
          · have hrm : ruleMatches s r elem = true := by
              simp [ruleMatches, hmt, hps]
            simp [classify_heading, hmt, hps, List.find?_cons, hrm]
          · have hrm : ruleMatches s r elem = false := by
              simp [ruleMatches, hmt]
              simpa using hps
            simp [classify_heading, hmt, List.find?_cons, hrm, ih,
              Bool.not_eq_true] at *
            simp [hps, ih]

/-- C3, counterexample. For a first chapter whose raw text is
Chapter 5: Foo under the template num-bar-text, the run renders 1-bar-Foo,
because the num placeholder receives the chapter counter (here 1), not
capture group 1 of the text pattern (here 5) as the claim states. -/
theorem c3_counterexample :
    ((toc_step initNumState c3item).toc_items.map TocEntry.text =
      ["Table of Contents", "1|Foo"]) ∧
    specDisplayText initTOCContext c3item = "5|Foo" ∧
    ("1|Foo" : String) ≠ "5|Foo" := by
  exact ⟨by decide, by decide, by decide⟩

/-- C3, amended. For every level-1 heading whose rule supplies a non-empty
display template, the rendered display text substitutes: for the num
placeholder the freshly incremented chapter counter rendered in decimal
(chapter), the generated roman token (part), the generated letter token
(appendix), or the empty string (frontmatter and backmatter); for the text
placeholder the clean title for chapter, part and appendix but the raw
text verbatim for frontmatter and backmatter; and for the raw placeholder
the raw text. -/
theorem c3_display_template (st : NumState) (item : RawItem)
    (h1 : item.level = 1) (h2 : item.display_template ≠ "") :
    ((toc_step st item).toc_items.getLast?).map TocEntry.text =
      some (match item.zone_type with
        | ZoneType.chapter =>
            pyFormat item.display_template (toString (st.context.chapter_counter + 1))
              (extract_clean_text_and_number item.raw_text item.compiled_pattern).2
              item.raw_text
        | ZoneType.part =>
            pyFormat item.display_template (int_to_roman (st.context.part_counter + 1))
              (extract_clean_text_and_number item.raw_text item.compiled_pattern).2
              item.raw_text
        | ZoneType.appendix =>
            pyFormat item.display_template
              (charStr (Char.ofNat ('A'.toNat + (st.context.appendix_counter + 1) - 1)))
              (extract_clean_text_and_number item.raw_text item.compiled_pattern).2
              item.raw_text
        | ZoneType.frontmatter =>
            pyFormat item.display_template "" item.raw_text item.raw_text
        | ZoneType.backmatter =>
            pyFormat item.display_template "" item.raw_text item.raw_text) := by
  have hl : (item.level == 1) = true := by simp [h1]
  cases hz : item.zone_type <;>
    simp [toc_step, hl, hz, h2, List.getLast?_concat]

/-- C3, witness for the amended statement, at the concrete first-chapter
record c3item. -/
theorem c3_display_template_witness :
    ((toc_step initNumState c3item).toc_items.getLast?).map TocEntry.text =
      some (pyFormat "{num}|{text}" (toString (0 + 1))
        (extract_clean_text_and_number "Chapter 5: Foo" c3item.compiled_pattern).2
        "Chapter 5: Foo") :=
  c3_display_template initNumState c3item rfl (by decide)

/-- Helper: storing a counter triple under one parent anchor leaves the
triples of every other parent anchor untouched. -/
theorem updSection_lookup_ne (l : List (String × SecCounter)) (k other : String)
    (v : SecCounter) (h : other ≠ k) :
    (updSection l k v).lookup other = l.lookup other := by
  have hbeq : (other == k) = false := by simp [h]
  induction l with
  | nil => simp [updSection, List.lookup, hbeq]
  | cons p rest ih =>
      by_cases hp : p.1 = k
      · cases p with
        | mk a b =>
            simp only at hp
            subst hp
            simp [updSection, List.lookup, hbeq]
      · cases p with
        | mk a b =>
            simp only [updSection, if_neg hp]
            cases hoa : other == a <;> simp [List.lookup, hoa, ih]

/-- C7. For a record of level at least 2, the numbering step resolves the
nearest preceding level-1 record of the discovery order as counter parent;
with no such parent the record is dropped: the counters, toc entries and
occurrence count are unchanged and no anchor is assigned. With a parent of
anchor base, the per-parent counter triple (created lazily at its first
reference and independent across parents) is incremented at the slot of
the record level (2 to sec2, 3 to sec3, 4 and above to sec4), the anchor
is base-seq for level 2, base-s-seq for level 3 and base-ss-seq for deeper
levels, the display text is the raw text verbatim, and the occurrence
count grows by one. The final conjunct checks the worked example of the
specification: two chapters with two sections each produce the anchors
1, 1-1, 1-2, 2, 2-1, 2-2. -/
theorem c7_section_numbering (st : NumState) (item : RawItem)
    (h2 : 2 ≤ item.level) :
    (nearestPrecedingL1 st.processed = none →
      toc_step st item = { st with processed := st.processed ++ [(item.level, "")] }) ∧
    (∀ base_id, nearestPrecedingL1 st.processed = some base_id →
      (toc_step st item =
        (let counter := get_section_counter st.context base_id
         let anchor :=
           if item.level == 2 then base_id ++ "-" ++ toString (counter.sec2 + 1)
           else if item.level == 3 then base_id ++ "-s" ++ toString (counter.sec3 + 1)
           else base_id ++ "-ss" ++ toString (counter.sec4 + 1)
         let counter2 :=
           if item.level == 2 then { counter with sec2 := counter.sec2 + 1 }
           else if item.level == 3 then { counter with sec3 := counter.sec3 + 1 }
           else { counter with sec4 := counter.sec4 + 1 }
         { context := { st.context with
             section_counters := updSection st.context.section_counters base_id counter2 }
           processed := st.processed ++ [(item.level, anchor)]
           toc_items := st.toc_items ++
             [{ level := item.level, text := item.raw_text,
                file := item.file_name, anchor := anchor }]
           occurrences := st.occurrences + 1 })) ∧
      (∀ other, other ≠ base_id →
        ((toc_step st item).context.section_counters.lookup other) =
          st.context.section_counters.lookup other)) ∧
    ((runNumbering c7items).toc_items.map TocEntry.anchor =
      ["toc", "1", "1-1", "1-2", "2", "2-1", "2-2"]) := by
  have hl : (item.level == 1) = false := by
    simp only [beq_eq_false_iff_ne, ne_eq]
    omega
  refine ⟨?_, ?_, by decide⟩
  · intro hnone
    simp [toc_step, hl, hnone]
  · intro base_id hsome
    constructor
    · by_cases h2' : item.level == 2
      · simp [toc_step, hl, hsome, h2']
      · by_cases h3 : item.level == 3
        · simp [toc_step, hl, hsome, h2', h3]
        · simp [toc_step, hl, hsome, h2', h3]
    · intro other hother
      by_cases h2' : item.level == 2
      · simp [toc_step, hl, hsome, h2', updSection_lookup_ne _ _ _ _ hother]
      · by_cases h3 : item.level == 3
        · simp [toc_step, hl, hsome, h2', h3, updSection_lookup_ne _ _ _ _ hother]
        · simp [toc_step, hl, hsome, h2', h3, updSection_lookup_ne _ _ _ _ hother]

/-- C7, witness: a level-2 record following a chapter of anchor 1 obtains
anchor 1-1 and increments the sec2 slot of the parent triple. -/
theorem c7_witness :
    toc_step c7state c7sub =
      { context := { initTOCContext with
          section_counters := [("1", { sec2 := 1, sec3 := 0, sec4 := 0 })] }
        processed := [(1, "1"), (2, "1-1")]
        toc_items := [{ level := 2, text := "S", file := "f", anchor := "1-1" }]
        occurrences := 4 } := by
  have h := ((c7_section_numbering c7state c7sub (by decide)).2.1 "1" rfl).1
  exact h.trans (by decide)

/-- C1. Evaluation of the run at the failing input: on a package whose
parsed package file lacks the manifest container (with a non-empty spine
and one matched heading), generate_toc reaches the bare return of
parsing_engine.py line 603 and hands the caller no pair at all, against
the claimed invariant that a result pair is always returned. -/
theorem c1_structural_return :
    (generate_toc dummySearch [ruleC] bkNoManifest).1 = none := by decide

/-- C2, counterexample. On the same manifest-less package the aborting run
has already rewritten the content document f1 and already written the
navigation document before the structural check fires: the effect journal
is not empty, against the claimed absence of written artifacts. -/
theorem c2_counterexample :
    ((generate_toc dummySearch [ruleC] bkNoManifest).2 =
      [Effect.writeFile "f1", Effect.addFile "ncx" "toc.ncx" "application/xml"]) ∧
    (generate_toc dummySearch [ruleC] bkNoManifest).2 ≠ [] := by
  exact ⟨by decide, by decide⟩

/-- C2, amended. When the parsed package file lacks the manifest container
or the spine container (and the spine listing is non-empty with at least
one matched heading), the run aborts at the package-update stage with a
bare none result and reports the structural error; no HTML TOC is written
and no manifest or spine registration is performed, but by that point the
content documents have already been rewritten and the navigation document
already written: the effect journal is exactly the content rewrites in
spine order followed by the navigation document write. -/
theorem c2_structural_abort (s : ReSearch) (rules : List Rule) (bk : Book)
    (hsp : spineFiles bk ≠ [])
    (hit : collectRawItems s rules bk ≠ [])
    (hms : (bk.has_manifest && bk.has_spine_el) = false) :
    generate_toc s rules bk =
      (none, (spineFiles bk).map Effect.writeFile ++ [ncxEffect bk]) := by
  unfold generate_toc
  simp [List.isEmpty_iff, hsp, hit, hms]

/-- C2, witness for the amended statement at the concrete manifest-less
package. -/
theorem c2_structural_abort_witness :
    generate_toc dummySearch [ruleC] bkNoManifest =
      (none, [Effect.writeFile "f1", Effect.addFile "ncx" "toc.ncx" "application/xml"]) := by
  have h := c2_structural_abort dummySearch [ruleC] bkNoManifest
    (by decide)
    (List.ne_nil_of_length_pos (by decide))
    rfl
  exact h.trans (by decide)

/-- C9, counterexample. With an empty spine no element of any spine
document matches any rule (vacuously), yet the run does not terminate as a
non-error: it reports the empty-spine exception value with count zero. -/
theorem c9_counterexample :
    generate_toc dummySearch [] bkEmptySpine = (some (some "Spine 为空", 0), []) ∧
    (generate_toc dummySearch [] bkEmptySpine).1 ≠ some (none, 0) := by
  exact ⟨by decide, by decide⟩

/-- C9, amended. Provided the spine listing is non-empty, a run in which
no element of any spine document matches any rule terminates as a
non-error with occurrence count zero and an empty effect journal: no
content document is rewritten and no navigation document, HTML TOC or
package registration is written. -/
theorem c9_empty_result (s : ReSearch) (rules : List Rule) (bk : Book)
    (hsp : spineFiles bk ≠ [])
    (h : ∀ f ∈ spineFiles bk, ∀ e ∈ bk.find_all f, classify_heading s rules e = none) :
    generate_toc s rules bk = (some (none, 0), []) := by
  have hcol : collectRawItems s rules bk = [] := by
    unfold collectRawItems
    have main : ∀ fs : List String,
        (∀ f ∈ fs, ∀ e ∈ bk.find_all f, classify_heading s rules e = none) →
        fs.flatMap (collectFile s rules bk) = [] := by
      intro fs
      induction fs with
      | nil => intro _; rfl
      | cons f rest ih =>
          intro hall
          have hf : collectFile s rules bk f = [] := by
            unfold collectFile
            rw [List.filterMap_eq_nil_iff]
            intro e he
            rw [hall f (List.mem_cons_self f rest) e he]
          have hr := ih (fun g hg e he => hall g (List.mem_cons_of_mem f hg) e he)
          simp [List.flatMap_cons, hf, hr]
    exact main _ h
  unfold generate_toc
  simp [List.isEmpty_iff, hsp, hcol]

/-- C9, witness for the amended statement: a one-document package scanned
with an empty rule list yields the non-error zero-count result and no
writes. -/
theorem c9_empty_result_witness :
    generate_toc dummySearch [] bkNoMatch = (some (none, 0), []) :=
  c9_empty_result dummySearch [] bkNoMatch (by decide) (fun f _ e _ => rfl)

end TocEngine
